import Mathlib

/-!
Verification of the fee-pricing core of `app_precificacao_projetos.py`.

Real-valued quantities are modelled with `ℚ` (the source computes exact
algebraic formulas over machine reals); repetition counts and slider
percentages are integers, as in the source. Each definition mirrors one
function or expression of the source file.
-/

namespace Precificacao

/-- `interpolate_fp` from the source: linear interpolation of `fp` between
the points `(sc1, fp1)` and `(sc2, fp2)`, queried at `sc`; returns `fp1`
when the two abscissae coincide. -/
def interpolate_fp (fp1 fp2 sc1 sc2 sc : ℚ) : ℚ :=
  if sc2 = sc1 then fp1
  else fp1 - ((fp1 - fp2) * ((sc - sc1) / (sc2 - sc1)))

/-- `estimate_r_by_repetition` from the source: banded heuristic mapping a
repetition count `q` to the discount coefficient `r`. -/
def estimate_r_by_repetition (q : ℤ) : ℚ :=
  if q ≤ 1 then 1
  else if 2 ≤ q ∧ q ≤ 4 then 7/10
  else if 5 ≤ q ∧ q ≤ 8 then 6/10
  else if 9 ≤ q ∧ q ≤ 16 then 5/10
  else if 17 ≤ q ∧ q ≤ 32 then 4/10
  else 35/100

/-- `compute_R` from the source: productive area `sp = snr + sr*r`, ratio
`sp / sc`, with `0` returned when `sc` is (Python-falsy) zero. -/
def compute_R (snr sr r sc : ℚ) : ℚ :=
  let sp := snr + sr * r
  if sc ≠ 0 then sp / sc else 0

/-- `compute_PV` from the source. -/
def compute_PV (sc bh fp R : ℚ) : ℚ :=
  sc * bh * (fp * R)

/-- `calcular_bh` from the source: `BH = CUB_básico × fator de adequação`. -/
def calcular_bh (cub_basico fator_adequacao : ℚ) : ℚ :=
  cub_basico * fator_adequacao

/-- `calcular_ic_media` from the source: arithmetic mean of the chosen
complexity factors, `1.0` on the empty (falsy) list. -/
def calcular_ic_media (fatores : List ℚ) : ℚ :=
  if fatores ≠ [] then fatores.sum / fatores.length else 1

/-- `fator_K_generico` from the source: composite adjustment factor from four
percentage loadings. -/
def fator_K_generico (ES DI L DL : ℚ) : ℚ :=
  (1 + ES/100) * (1 + DI/100) * (1 + L/100) * (1 + DL/100)

/-- The surcharge application `PV_total = PV * (1 + bdi_extra/100.0)` from
the source (line 216). -/
def PV_total (PV bdi_extra : ℚ) : ℚ :=
  PV * (1 + bdi_extra / 100)

/-- `soma` from the source's schedule expander: sum of the stage
percentages (slider values are integers). -/
def soma (parcelas : List (String × ℤ)) : ℤ :=
  (parcelas.map Prod.snd).sum

/-- `parcelas_valores` from the source (line 251): each stage receives
`(pct/100) * PV_total`. -/
def parcelas_valores (parcelas : List (String × ℤ)) (total : ℚ) :
    List (String × ℚ) :=
  parcelas.map fun ep => (ep.1, ((ep.2 : ℚ) / 100) * total)

/-- The schedule step of the source as one operation: the mismatch flag
(`st.error` fires iff `soma != 100`, line 248) together with the per-stage
values, which the source computes unconditionally right after the check. -/
def apportion (parcelas : List (String × ℤ)) (total : ℚ) :
    Bool × List (String × ℚ) :=
  (decide (soma parcelas ≠ 100), parcelas_valores parcelas total)

end Precificacao

namespace Precificacao

/-- C2: `compute_PV` returns `Sc * BH * (fp * R)`, the surcharge step
returns `PV * (1 + bdi/100)`, and with `bdi = 0` the total equals the base
price. -/
theorem C2_fee_formula (sc bh fp R bdi : ℚ) :
    compute_PV sc bh fp R = sc * bh * (fp * R) ∧
    PV_total (compute_PV sc bh fp R) bdi = compute_PV sc bh fp R * (1 + bdi/100) ∧
    PV_total (compute_PV sc bh fp R) 0 = compute_PV sc bh fp R := by
  refine ⟨rfl, rfl, ?_⟩
  simp [PV_total]

/-- C6: `compute_R` returns `0` whenever `Sc = 0`, and `interpolate_fp`
returns `fp1` whenever the two calibration abscissae coincide — both
degenerate inputs yield a defined fallback, never a failure. -/
theorem C6_degenerate_fallbacks :
    (∀ snr sr r : ℚ, compute_R snr sr r 0 = 0) ∧
    (∀ fp1 fp2 x sc : ℚ, interpolate_fp fp1 fp2 x x sc = fp1) := by
  constructor
  · intro snr sr r
    simp [compute_R]
  · intro fp1 fp2 x sc
    simp [interpolate_fp]

end Precificacao

namespace Precificacao

/-- C3 counterexample: at `Sc=5000, Snr=1500, Sr=3500, r=0.6` the code's
ratio is not `0.66` and, with `BH=120, fp=0.18`, its base price is not
`71,280`: the claim's arithmetic is wrong at its own quoted input. -/
theorem C3_counterexample :
    compute_R 1500 3500 (6/10) 5000 ≠ 66/100 ∧
    compute_PV 5000 120 (18/100) (compute_R 1500 3500 (6/10) 5000) ≠ 71280 := by
  constructor <;> · simp only [compute_R, compute_PV]; norm_num

/-- C3 amended: with `Sc=5000, Snr=1500, Sr=3500, r=0.6` the ratio is
`R = (1500 + 3500*0.6)/5000 = 0.72`; with `BH=120, fp=0.18` the base price
is `PV = 5000*120*(0.18*0.72) = 77,760.00`, and with `bdi=10` the total is
`PV_total = 85,536.00`. -/
theorem C3_amended_example :
    compute_R 1500 3500 (6/10) 5000 = 72/100 ∧
    compute_PV 5000 120 (18/100) (compute_R 1500 3500 (6/10) 5000) = 77760 ∧
    PV_total (compute_PV 5000 120 (18/100) (compute_R 1500 3500 (6/10) 5000)) 10
      = 85536 := by
  refine ⟨?_, ?_, ?_⟩ <;> · simp only [compute_R, compute_PV, PV_total]; norm_num

/-- C7: for distinct calibration abscissae the interpolator returns exactly
`fp1 - (fp1 - fp2) * ((sc - sc1) / (sc2 - sc1))`, also outside the bracket
(no clamping), and extrapolated results can leave `[0,1]` unrejected. -/
theorem C7_interpolation_exact (fp1 fp2 sc1 sc2 sc : ℚ) (h : sc1 ≠ sc2) :
    interpolate_fp fp1 fp2 sc1 sc2 sc
      = fp1 - (fp1 - fp2) * ((sc - sc1) / (sc2 - sc1)) ∧
    ∃ a1 a2 x1 x2 x : ℚ, x1 ≠ x2 ∧ 1 < interpolate_fp a1 a2 x1 x2 x := by
  constructor
  · rw [interpolate_fp, if_neg (fun hc => h hc.symm)]
  · refine ⟨0, 1, 0, 1, 2, by norm_num, ?_⟩
    simp only [interpolate_fp]
    norm_num

/-- C7 witness: the exact interpolation formula instantiated at the
concrete distinct pair `(0, 0.22)`, `(10000, 0.15)` queried at `5000`. -/
theorem C7_interpolation_exact_witness :
    interpolate_fp (22/100) (15/100) 0 10000 5000
      = 22/100 - (22/100 - 15/100) * ((5000 - 0) / (10000 - 0)) :=
  (C7_interpolation_exact (22/100) (15/100) 0 10000 5000 (by norm_num)).1

end Precificacao

namespace Precificacao

/-- The "Padrão (Genérico)" schedule preset from the source. -/
def parcelamento_padrao : List (String × ℤ) :=
  [("Assinatura", 10), ("Estudo Preliminar", 20), ("Anteprojeto", 25),
   ("Projeto Básico", 10), ("Projeto para Execução", 30),
   ("As Built / Encerramento", 5)]

/-- The "Sem Projeto Básico" schedule preset from the source. -/
def parcelamento_sem_projeto_basico : List (String × ℤ) :=
  [("Assinatura", 10), ("Estudo Preliminar", 20), ("Anteprojeto", 30),
   ("Projeto para Execução", 35), ("As Built / Encerramento", 5)]

theorem parcelas_valores_sum (l : List (String × ℤ)) (T : ℚ) :
    ((parcelas_valores l T).map Prod.snd).sum = ((soma l : ℚ) / 100) * T := by
  induction l with
  | nil => simp [parcelas_valores, soma]
  | cons p l ih =>
    simp only [parcelas_valores, soma, List.map_cons, List.sum_cons] at *
    rw [ih]
    push_cast
    ring

/-- C4: whenever the stage percentages sum to `100`, every stage `(st, pct)`
is apportioned the value `(pct/100) * T`, and the apportioned values sum
exactly to `T`. -/
theorem C4_apportionment_total (parcelas : List (String × ℤ)) (T : ℚ)
    (h : soma parcelas = 100) :
    (∀ st pct, (st, pct) ∈ parcelas →
      (st, ((pct : ℚ) / 100) * T) ∈ parcelas_valores parcelas T) ∧
    ((parcelas_valores parcelas T).map Prod.snd).sum = T := by
  constructor
  · intro st pct hmem
    exact List.mem_map.mpr ⟨(st, pct), hmem, rfl⟩
  · rw [parcelas_valores_sum, h]
    norm_num

/-- C4 witness: the default six-stage preset sums to 100 and apportioning
`T = 77760` over it returns values summing to exactly `77760`. -/
theorem C4_apportionment_total_witness :
    ((parcelas_valores parcelamento_padrao 77760).map Prod.snd).sum = 77760 :=
  (C4_apportionment_total parcelamento_padrao 77760 (by decide)).2

/-- C5: whenever the stage percentages do not sum to `100`, the mismatch
flag is raised, yet the per-stage values are still computed, each stage
`(st, pct)` receiving `(pct/100) * T` — the mismatch never blocks the
computation. -/
theorem C5_mismatch_flag (parcelas : List (String × ℤ)) (T : ℚ)
    (h : soma parcelas ≠ 100) :
    (apportion parcelas T).1 = true ∧
    (apportion parcelas T).2 = parcelas_valores parcelas T ∧
    ∀ st pct, (st, pct) ∈ parcelas →
      (st, ((pct : ℚ) / 100) * T) ∈ (apportion parcelas T).2 := by
  refine ⟨by simp [apportion, h], rfl, ?_⟩
  intro st pct hmem
  exact List.mem_map.mpr ⟨(st, pct), hmem, rfl⟩

/-- C5 witness: a five-stage mapping summing to `95` raises the mismatch
flag while the first stage still receives `(10/100) * 1000 = 100`. -/
theorem C5_mismatch_flag_witness :
    (apportion [("Assinatura", 10), ("Estudo Preliminar", 20),
      ("Anteprojeto", 30), ("Projeto para Execução", 30),
      ("As Built / Encerramento", 5)] 1000).1 = true ∧
    ("Assinatura", ((10 : ℚ) / 100) * 1000) ∈
      (apportion [("Assinatura", 10), ("Estudo Preliminar", 20),
        ("Anteprojeto", 30), ("Projeto para Execução", 30),
        ("As Built / Encerramento", 5)] 1000).2 := by
  have h := C5_mismatch_flag [("Assinatura", 10), ("Estudo Preliminar", 20),
    ("Anteprojeto", 30), ("Projeto para Execução", 30),
    ("As Built / Encerramento", 5)] 1000 (by decide)
  exact ⟨h.1, h.2.2 "Assinatura" 10 (by simp)⟩

end Precificacao

namespace Precificacao

theorem mul4_lt_left (a a' b c d : ℚ) (hb : 0 < b) (hc : 0 < c) (hd : 0 < d)
    (h : a < a') : a * b * c * d < a' * b * c * d :=
  mul_lt_mul_of_pos_right
    (mul_lt_mul_of_pos_right (mul_lt_mul_of_pos_right h hb) hc) hd

/-- C8: the composite adjustment factor equals
`(1+ES/100)*(1+DI/100)*(1+L/100)*(1+DL/100)`, is `1` at all-zero loadings,
and for non-negative loadings is strictly increasing in each of the four
arguments independently. -/
theorem C8_fator_K (ES DI L DL ES2 DI2 L2 DL2 : ℚ)
    (hES : 0 ≤ ES) (hDI : 0 ≤ DI) (hL : 0 ≤ L) (hDL : 0 ≤ DL) :
    fator_K_generico ES DI L DL
      = (1 + ES/100) * (1 + DI/100) * (1 + L/100) * (1 + DL/100) ∧
    fator_K_generico 0 0 0 0 = 1 ∧
    (ES < ES2 → fator_K_generico ES DI L DL < fator_K_generico ES2 DI L DL) ∧
    (DI < DI2 → fator_K_generico ES DI L DL < fator_K_generico ES DI2 L DL) ∧
    (L < L2 → fator_K_generico ES DI L DL < fator_K_generico ES DI L2 DL) ∧
    (DL < DL2 → fator_K_generico ES DI L DL < fator_K_generico ES DI L DL2) := by
  have hES1 : (0:ℚ) < 1 + ES/100 := by linarith
  have hDI1 : (0:ℚ) < 1 + DI/100 := by linarith
  have hL1 : (0:ℚ) < 1 + L/100 := by linarith
  have hDL1 : (0:ℚ) < 1 + DL/100 := by linarith
  refine ⟨rfl, by norm_num [fator_K_generico], ?_, ?_, ?_, ?_⟩ <;>
      intro hlt <;> simp only [fator_K_generico]
  · exact mul4_lt_left _ _ _ _ _ hDI1 hL1 hDL1 (by linarith)
  · have h1 : (1 + ES/100) * (1 + DI/100) < (1 + ES/100) * (1 + DI2/100) :=
      mul_lt_mul_of_pos_left (by linarith) hES1
    exact mul_lt_mul_of_pos_right (mul_lt_mul_of_pos_right h1 hL1) hDL1
  · have h1 : (1 + ES/100) * (1 + DI/100) * (1 + L/100)
        < (1 + ES/100) * (1 + DI/100) * (1 + L2/100) :=
      mul_lt_mul_of_pos_left (by linarith) (mul_pos hES1 hDI1)
    exact mul_lt_mul_of_pos_right h1 hDL1
  · exact mul_lt_mul_of_pos_left (by linarith)
      (mul_pos (mul_pos hES1 hDI1) hL1)

/-- C8 witness: at all-zero loadings the factor is `1`, and raising the
first loading from `0` to `20` strictly increases it. -/
theorem C8_fator_K_witness :
    fator_K_generico 0 0 0 0 = 1 ∧
    fator_K_generico 0 0 0 0 < fator_K_generico 20 0 0 0 := by
  have h := C8_fator_K 0 0 0 0 20 0 0 0 (by norm_num) (by norm_num)
    (by norm_num) (by norm_num)
  exact ⟨h.2.1, h.2.2.1 (by norm_num)⟩

theorem mul_length_le_sum (l : List ℚ) (a : ℚ) (h : ∀ x ∈ l, a ≤ x) :
    a * l.length ≤ l.sum := by
  induction l with
  | nil => simp
  | cons x l ih =>
    simp only [List.sum_cons, List.length_cons]
    have hx := h x (List.mem_cons_self x l)
    have hrest := ih fun y hy => h y (List.mem_cons_of_mem x hy)
    have hexp : a * ((l.length : ℚ) + 1) = a * l.length + a := by ring
    push_cast
    rw [hexp]
    linarith

theorem sum_le_mul_length (l : List ℚ) (b : ℚ) (h : ∀ x ∈ l, x ≤ b) :
    l.sum ≤ b * l.length := by
  induction l with
  | nil => simp
  | cons x l ih =>
    simp only [List.sum_cons, List.length_cons]
    have hx := h x (List.mem_cons_self x l)
    have hrest := ih fun y hy => h y (List.mem_cons_of_mem x hy)
    have hexp : b * ((l.length : ℚ) + 1) = b * l.length + b := by ring
    push_cast
    rw [hexp]
    linarith

/-- C9: the complexity aggregator is the arithmetic mean of the chosen
coefficients and returns `1` on the empty collection; for ten selections
drawn from `{0.70, 1.00, 1.30}` the aggregate lies in `[0.70, 1.30]`, and
ten Medium selections (all `1.00`) yield exactly `1`. -/
theorem C9_ic_media (l : List ℚ) (hlen : l.length = 10)
    (hmem : ∀ x ∈ l, x = 7/10 ∨ x = 1 ∨ x = 13/10) :
    calcular_ic_media [] = 1 ∧
    calcular_ic_media l = l.sum / l.length ∧
    7/10 ≤ calcular_ic_media l ∧ calcular_ic_media l ≤ 13/10 ∧
    calcular_ic_media (List.replicate 10 1) = 1 := by
  have hne : l ≠ [] := by
    intro hnil
    rw [hnil] at hlen
    simp at hlen
  have hlo : ∀ x ∈ l, (7/10 : ℚ) ≤ x := by
    intro x hx
    rcases hmem x hx with h | h | h <;> rw [h] <;> norm_num
  have hhi : ∀ x ∈ l, x ≤ (13/10 : ℚ) := by
    intro x hx
    rcases hmem x hx with h | h | h <;> rw [h] <;> norm_num
  have hsumlo := mul_length_le_sum l (7/10) hlo
  have hsumhi := sum_le_mul_length l (13/10) hhi
  rw [hlen] at hsumlo hsumhi
  push_cast at hsumlo hsumhi
  have hmean : calcular_ic_media l = l.sum / l.length := by
    rw [calcular_ic_media, if_pos hne]
  refine ⟨by simp [calcular_ic_media], hmean, ?_, ?_, ?_⟩
  · rw [hmean, hlen]
    push_cast
    rw [le_div_iff₀ (by norm_num)]
    linarith
  · rw [hmean, hlen]
    push_cast
    rw [div_le_iff₀ (by norm_num)]
    linarith
  · rw [calcular_ic_media, if_pos (by simp)]
    norm_num

/-- C9 witness: ten Medium selections have length ten, all coefficients in
the allowed set, and the aggregate is exactly `1`. -/
theorem C9_ic_media_witness :
    calcular_ic_media (List.replicate 10 1) = 1 := by
  have h := C9_ic_media (List.replicate 10 1) (by simp)
    (fun x hx => Or.inr (Or.inl (List.eq_of_mem_replicate hx)))
  exact h.2.2.2.2

end Precificacao

namespace Precificacao

/-- C10: the repetition estimator is total on all integers — every `q ≤ 1`
(including zero and negatives) returns `1`; every result is one of
`{1, 0.70, 0.60, 0.50, 0.40, 0.35}`, hence in `(0, 1]`; and the result is
monotonically non-increasing in `q`. -/
theorem C10_repetition_bands (q q2 : ℤ) (hle : q ≤ q2) :
    (q ≤ 1 → estimate_r_by_repetition q = 1) ∧
    estimate_r_by_repetition q ∈
      ([1, 7/10, 6/10, 5/10, 4/10, 35/100] : List ℚ) ∧
    0 < estimate_r_by_repetition q ∧ estimate_r_by_repetition q ≤ 1 ∧
    estimate_r_by_repetition q2 ≤ estimate_r_by_repetition q := by
  refine ⟨?_, ?_, ?_, ?_, ?_⟩
  · intro h1
    rw [estimate_r_by_repetition, if_pos h1]
  · simp only [estimate_r_by_repetition]
    split_ifs <;> simp
  · simp only [estimate_r_by_repetition]
    split_ifs <;> norm_num
  · simp only [estimate_r_by_repetition]
    split_ifs <;> norm_num
  · simp only [estimate_r_by_repetition]
    split_ifs <;> first | (exfalso; omega) | norm_num

/-- C10 witness: at `q = 0` the estimator returns `1`, and at `q = 33` its
value does not exceed the value at `0`. -/
theorem C10_repetition_bands_witness :
    estimate_r_by_repetition 0 = 1 ∧
    estimate_r_by_repetition 33 ≤ estimate_r_by_repetition 0 := by
  have h := C10_repetition_bands 0 33 (by decide)
  exact ⟨h.1 (by decide), h.2.2.2.2⟩

end Precificacao

namespace Precificacao

/-- A JSON-like value, the shape serialized by `json.dumps` in the source's
export tab. -/
inductive JVal where
  | num : ℚ → JVal
  | str : String → JVal
  | null : JVal
  | obj : List (String × JVal) → JVal

/-- The keys of a JSON object (empty for non-objects). -/
def JVal.keys : JVal → List String
  | .obj kvs => kvs.map Prod.fst
  | _ => []

/-- Field lookup in a JSON object (`null` when absent or not an object). -/
def JVal.get : JVal → String → JVal
  | .obj kvs, k =>
    match kvs.find? (fun kv => kv.1 == k) with
    | some kv => kv.2
    | none => .null
  | _, _ => .null

/-- The `proposta` record built in the export tab of the source
(lines 347–370): identification, inputs and results sections, with `R`,
`PV` and `PV_total` recomputed from the session values. -/
def proposta (projeto cliente uf tipologia data : String)
    (sc snr sr r bh fp bdi_extra : ℚ) (bh_calculado : Option ℚ) : JVal :=
  let R := compute_R snr sr r sc
  let PV := compute_PV sc bh fp R
  let PVt := PV_total PV bdi_extra
  .obj
    [("identificacao", .obj
        [("projeto", .str projeto), ("cliente", .str cliente),
         ("uf", .str uf), ("tipologia", .str tipologia),
         ("data", .str data)]),
     ("entradas", .obj
        [("Sc", .num sc), ("Snr", .num snr), ("Sr", .num sr),
         ("r", .num r), ("R", .num R), ("BH", .num bh), ("fp", .num fp),
         ("BDI_extra_%", .num bdi_extra),
         ("BH_calculado",
           match bh_calculado with
           | some v => .num v
           | none => .null)]),
     ("resultados", .obj
        [("PV_sem_BDI", .num PV), ("PV_total", .num PVt)])]

/-- C1 counterexample: at a concrete export the structured document has
exactly the three top-level sections `identificacao`, `entradas`,
`resultados` — no schedule section of any name — and the repetition count
`q` is not among the input keys, contradicting the claimed format. -/
theorem C1_counterexample :
    (proposta "Edifício Residencial Exemplo" "IDIBRA / Exemplo" "CE"
        "Residencial multifamiliar" "2026-10-12"
        5000 1500 3500 (6/10) 120 (18/100) 0 none).keys
      = ["identificacao", "entradas", "resultados"] ∧
    "schedule" ∉ (proposta "Edifício Residencial Exemplo" "IDIBRA / Exemplo"
        "CE" "Residencial multifamiliar" "2026-10-12"
        5000 1500 3500 (6/10) 120 (18/100) 0 none).keys ∧
    "parcelamento" ∉ (proposta "Edifício Residencial Exemplo"
        "IDIBRA / Exemplo" "CE" "Residencial multifamiliar" "2026-10-12"
        5000 1500 3500 (6/10) 120 (18/100) 0 none).keys ∧
    "q" ∉ ((proposta "Edifício Residencial Exemplo" "IDIBRA / Exemplo" "CE"
        "Residencial multifamiliar" "2026-10-12"
        5000 1500 3500 (6/10) 120 (18/100) 0 none).get "entradas").keys := by
  refine ⟨rfl, ?_, ?_, ?_⟩ <;> · simp [proposta, JVal.keys, JVal.get]

/-- C1 amended: for every export, the structured document's top-level
sections are exactly `identificacao {projeto, cliente, uf, tipologia,
data}`, `entradas {Sc, Snr, Sr, r, R, BH, fp, BDI_extra_%, BH_calculado}`
and `resultados {PV_sem_BDI, PV_total}`; the inputs carry no repetition
count `q`, and the schedule appears in no section of the structured
document — it is exported only as the separate tabular (CSV) document. -/
theorem C1_amended_export_shape (projeto cliente uf tipologia data : String)
    (sc snr sr r bh fp bdi_extra : ℚ) (bh_calculado : Option ℚ) :
    (proposta projeto cliente uf tipologia data
        sc snr sr r bh fp bdi_extra bh_calculado).keys
      = ["identificacao", "entradas", "resultados"] ∧
    ((proposta projeto cliente uf tipologia data
        sc snr sr r bh fp bdi_extra bh_calculado).get "identificacao").keys
      = ["projeto", "cliente", "uf", "tipologia", "data"] ∧
    ((proposta projeto cliente uf tipologia data
        sc snr sr r bh fp bdi_extra bh_calculado).get "entradas").keys
      = ["Sc", "Snr", "Sr", "r", "R", "BH", "fp", "BDI_extra_%",
         "BH_calculado"] ∧
    ((proposta projeto cliente uf tipologia data
        sc snr sr r bh fp bdi_extra bh_calculado).get "resultados").keys
      = ["PV_sem_BDI", "PV_total"] ∧
    "q" ∉ ((proposta projeto cliente uf tipologia data
        sc snr sr r bh fp bdi_extra bh_calculado).get "entradas").keys := by
  refine ⟨rfl, ?_, ?_, ?_, ?_⟩ <;> · simp [proposta, JVal.keys, JVal.get]

end Precificacao
